import Mathlib

/-!
Shallow embedding of the `googledrive` package of tiagomelo/google-drive-client.

Errors are modelled by their message strings (`GoErr`); `errors.Wrap`/`errors.Wrapf`
from github.com/pkg/errors render as `context ++ ": " ++ cause`.  The vendor SDK
builder objects (`FilesCreateCall`, `FilesGetCall`, ...) separate call construction
from execution; the embedding collapses each builder chain into a request record
(`CreateCall`, `UpdateCall`) plus a single execute function supplied by the
service under test, exactly as the repository's own mocks do.  The pass-through
wrappers of interfaces.go (`fileServiceWrapper` etc.) delegate field-by-field and
are modelled as the identity.
-/

namespace GoogleDrive

/-- error values carry only their rendered message. -/
abbrev GoErr := String

/-- model of errors.Wrap / errors.Wrapf: the wrapped error's message is the
formatted context, a colon and a space, then the cause's message. -/
def wrap (err : GoErr) (msg : String) : GoErr :=
  msg ++ ": " ++ err

/-- Go fmt %v rendering of a []string value: the elements separated by single
spaces, enclosed in square brackets. -/
def goFmtStrings (xs : List String) : String :=
  "[" ++ String.intercalate " " xs ++ "]"

/-- model of Go path/filepath.Base on slash-separated paths: empty path gives
".", a path of only separators gives "/", otherwise trailing separators are
stripped and the part after the last remaining separator is returned. -/
def filepathBase (path : String) : String :=
  if path = "" then "."
  else
    let r := path.data.reverse.dropWhile (fun c => c == '/')
    if r = [] then "/"
    else String.mk (r.takeWhile (fun c => !(c == '/'))).reverse

-- roles (googledrive.go constants)
def OwnerRole : String := "owner"

def OrganizerRole : String := "organizer"

def FileOrganizerRole : String := "fileOrganizer"

def WriterRole : String := "writer"

def CommenterRole : String := "commenter"

def ReaderRole : String := "reader"

-- grantee types (googledrive.go constants)
def UserGranteeType : String := "user"

def GroupGranteeType : String := "group"

def DomainGranteeType : String := "domain"

def AnyoneGranteeType : String := "anyone"

/-- the folder MIME type constant local to CreateFolder. -/
def folderMimeType : String := "application/vnd.google-apps.folder"

/-- model of drive.File: the metadata fields this client reads or writes.
Absent fields keep Go's zero values (empty string / nil slice). -/
structure DriveFile where
  id : String := ""
  name : String := ""
  mimeType : String := ""
  parents : List String := []
deriving DecidableEq

/-- model of drive.Permission restricted to the fields this client sets. -/
structure Permission where
  emailAddress : String := ""
  domain : String := ""
  type : String := ""
  role : String := ""
deriving DecidableEq

/-- model of an *os.File handle: only its Name() is observable here. -/
structure OsFile where
  name : String
deriving DecidableEq

/-- model of an *http.Response from FilesGetCall.Download: an opaque body. -/
structure HttpResponse where
  body : String
deriving DecidableEq

/-- state accumulated by a filesCreateCall builder before Do: the metadata
passed to Create and the optional media reader attached by Media. -/
structure CreateCall where
  file : DriveFile
  media : Option OsFile := none
deriving DecidableEq

/-- state accumulated by a filesUpdateCall builder before Do: the file id and
optional metadata passed to Update, and the optional media attached by Media. -/
structure UpdateCall where
  fileId : String
  file : Option DriveFile := none
  media : Option OsFile := none
deriving DecidableEq

/-- model of the fileService facade: one execute function per builder chain,
supplied by the environment (the real SDK or a test double). -/
structure fileService where
  create : CreateCall → Except GoErr DriveFile
  get : String → Except GoErr DriveFile
  download : String → Except GoErr HttpResponse
  delete : String → Option GoErr
  update : UpdateCall → Except GoErr DriveFile

/-- model of the permissionsService facade. -/
structure permissionsService where
  create : String → Permission → Except GoErr Permission

/-- model of the driveService facade handed to the client by New. -/
structure driveService where
  files : fileService
  permissions : permissionsService

/-- the concrete client: a drive service facade plus the permissions facade
extracted from it at construction time. -/
structure client where
  srv : driveService
  pSrv : permissionsService

/-- outcome oracles for the package-level osCreate and ioCopy variables:
whether os.Create fails at a given path, and whether io.Copy fails for a
given destination path and source content. -/
structure LocalFs where
  createErr : String → Option GoErr
  copyErr : String → String → Option GoErr

/-- model of the osCreate package variable (os.Create): on success the
returned handle's Name() is exactly the path passed, per the os contract. -/
def osCreate (fs : LocalFs) (path : String) : Except GoErr OsFile :=
  match fs.createErr path with
  | some e => Except.error e
  | none => Except.ok { name := path }

/-- model of the ioCopy package variable (io.Copy): only the error outcome is
observable here. -/
def ioCopy (fs : LocalFs) (dst : OsFile) (src : HttpResponse) : Option GoErr :=
  fs.copyErr dst.name src.body

/-- factory New: on service-construction failure the error is wrapped with
"creating drive service" and no client is produced; on success the client
holds the drive service and its permissions facade. -/
def New (newDriveService : Except GoErr driveService) : Except GoErr client :=
  match newDriveService with
  | Except.error err => Except.error (wrap err "creating drive service")
  | Except.ok srv => Except.ok { srv := srv, pSrv := srv.permissions }

/-- the drive.File literal CreateFolder passes to Files().Create. -/
def createFolderFile (folderName : String) (parentFolders : List String) : DriveFile :=
  { name := folderName, mimeType := folderMimeType, parents := parentFolders }

/-- client.CreateFolder from googledrive.go. -/
def client.CreateFolder (c : client) (folderName : String) (parentFolders : List String) :
    Except GoErr String :=
  match c.srv.files.create { file := createFolderFile folderName parentFolders } with
  | Except.error err =>
      Except.error (wrap err
        ("creating folder " ++ folderName ++ " under parent folders " ++ goFmtStrings parentFolders))
  | Except.ok createdFolder => Except.ok createdFolder.id

/-- client.GetFileById from googledrive.go. -/
def client.GetFileById (c : client) (fileId : String) : Except GoErr DriveFile :=
  match c.srv.files.get fileId with
  | Except.error err => Except.error (wrap err ("getting file with id " ++ fileId))
  | Except.ok driveFile => Except.ok driveFile

/-- the create call UploadFile builds: metadata names the base name of the
local file's path, and the local file itself is attached as media. -/
def uploadCall (file : OsFile) (parentFolders : List String) : CreateCall :=
  { file := { name := filepathBase file.name, parents := parentFolders }, media := some file }

/-- client.UploadFile from googledrive.go. -/
def client.UploadFile (c : client) (file : OsFile) (parentFolders : List String) :
    Except GoErr String :=
  match c.srv.files.create (uploadCall file parentFolders) with
  | Except.error err =>
      Except.error (wrap err
        ("creating file " ++ file.name ++ " under parent folders " ++ goFmtStrings parentFolders))
  | Except.ok driveFile => Except.ok driveFile.id

/-- client.DeleteFile from googledrive.go. -/
def client.DeleteFile (c : client) (fileId : String) : Option GoErr :=
  match c.srv.files.delete fileId with
  | some err => some (wrap err ("deleting file with id " ++ fileId))
  | none => none

/-- client.assignPermissionOnFile from googledrive.go: runs the permission
facade's create-and-execute, discarding the created permission. -/
def client.assignPermissionOnFile (c : client) (permission : Permission) (fileId : String) :
    Option GoErr :=
  match c.pSrv.create fileId permission with
  | Except.error err => some err
  | Except.ok _ => none

/-- the drive.Permission literal AssignRoleToUserOnFile builds. -/
def userPermission (role emailAddress : String) : Permission :=
  { emailAddress := emailAddress, type := UserGranteeType, role := role }

/-- the drive.Permission literal AssignRoleToGroupOnFile builds. -/
def groupPermission (role emailAddress : String) : Permission :=
  { emailAddress := emailAddress, type := GroupGranteeType, role := role }

/-- the drive.Permission literal AssignRoleToDomainOnFile builds. -/
def domainPermission (role domain : String) : Permission :=
  { domain := domain, type := DomainGranteeType, role := role }

/-- the drive.Permission literal AssignRoleToAnyoneOnFile builds. -/
def anyonePermission (role : String) : Permission :=
  { type := AnyoneGranteeType, role := role }

/-- client.AssignRoleToUserOnFile from googledrive.go. -/
def client.AssignRoleToUserOnFile (c : client) (role emailAddress fileId : String) :
    Option GoErr :=
  match c.assignPermissionOnFile (userPermission role emailAddress) fileId with
  | some err =>
      some (wrap err
        ("assigning role " ++ role ++ " on file with id " ++ fileId ++
          " to email address " ++ emailAddress))
  | none => none

/-- client.AssignRoleToGroupOnFile from googledrive.go. -/
def client.AssignRoleToGroupOnFile (c : client) (role emailAddress fileId : String) :
    Option GoErr :=
  match c.assignPermissionOnFile (groupPermission role emailAddress) fileId with
  | some err =>
      some (wrap err
        ("assigning role " ++ role ++ " on file with id " ++ fileId ++
          " to email address " ++ emailAddress))
  | none => none

/-- client.AssignRoleToDomainOnFile from googledrive.go. -/
def client.AssignRoleToDomainOnFile (c : client) (role domain fileId : String) :
    Option GoErr :=
  match c.assignPermissionOnFile (domainPermission role domain) fileId with
  | some err =>
      some (wrap err
        ("assigning role " ++ role ++ " on file with id " ++ fileId ++
          " to domain " ++ domain))
  | none => none

/-- client.AssignRoleToAnyoneOnFile from googledrive.go. -/
def client.AssignRoleToAnyoneOnFile (c : client) (role fileId : String) :
    Option GoErr :=
  match c.assignPermissionOnFile (anyonePermission role) fileId with
  | some err =>
      some (wrap err
        ("assigning role " ++ role ++ " on file with id " ++ fileId ++ " to anyone"))
  | none => none

/-- the error context of DownloadFile's remote-fetch failure point. -/
def downloadCtx (fileId : String) : String :=
  "downloading file with id " ++ fileId

/-- the error context of DownloadFile's local-create failure point. -/
def createOutCtx (outputFile : String) : String :=
  "creating output file " ++ outputFile

/-- the error context of DownloadFile's local-write failure point. -/
def writeOutCtx (outputFile : String) : String :=
  "writing output file " ++ outputFile

/-- an observable effect performed by DownloadFile, in program order. -/
inductive DlStep where
  | download (fileId : String)
  | osCreate (path : String)
  | ioCopy (path : String)
deriving DecidableEq

/-- client.DownloadFile from googledrive.go, instrumented with the list of
effects it performs: Files().Get(fileId).Download(), then osCreate(outputFile),
then ioCopy into the created handle; each failure aborts the remaining steps. -/
def client.DownloadFileAux (c : client) (fs : LocalFs) (fileId outputFile : String) :
    Except GoErr String × List DlStep :=
  match c.srv.files.download fileId with
  | Except.error err =>
      (Except.error (wrap err (downloadCtx fileId)), [DlStep.download fileId])
  | Except.ok resp =>
      match osCreate fs outputFile with
      | Except.error err =>
          (Except.error (wrap err (createOutCtx outputFile)),
            [DlStep.download fileId, DlStep.osCreate outputFile])
      | Except.ok f =>
          match ioCopy fs f resp with
          | some err =>
              (Except.error (wrap err (writeOutCtx outputFile)),
                [DlStep.download fileId, DlStep.osCreate outputFile, DlStep.ioCopy f.name])
          | none =>
              (Except.ok f.name,
                [DlStep.download fileId, DlStep.osCreate outputFile, DlStep.ioCopy f.name])

/-- client.DownloadFile's returned value (the effect trace projected away). -/
def client.DownloadFile (c : client) (fs : LocalFs) (fileId outputFile : String) :
    Except GoErr String :=
  (c.DownloadFileAux fs fileId outputFile).1

/-- the update call UpdateFile builds: Update(fileId, nil) passes no metadata
object, then Media attaches the new content. -/
def updateCall (fileId : String) (newContent : OsFile) : UpdateCall :=
  { fileId := fileId, file := none, media := some newContent }

/-- client.UpdateFile from googledrive.go. -/
def client.UpdateFile (c : client) (fileId : String) (newContent : OsFile) :
    Except GoErr String :=
  match c.srv.files.update (updateCall fileId newContent) with
  | Except.error err => Except.error (wrap err ("updating file " ++ fileId))
  | Except.ok updatedFile => Except.ok updatedFile.id

/-- test fixture: a drive service whose every execute step fails with a fixed
error message, mirroring the repository's error-path mocks. -/
def failingService (e : GoErr) : driveService :=
  { files :=
      { create := fun _ => Except.error e
        get := fun _ => Except.error e
        download := fun _ => Except.error e
        delete := fun _ => some e
        update := fun _ => Except.error e }
    permissions := { create := fun _ _ => Except.error e } }

/-- test fixture: the client New composes over a `failingService`. -/
def failingClient (e : GoErr) : client :=
  { srv := failingService e, pSrv := (failingService e).permissions }

/-- test fixture: a drive service whose every execute step succeeds, returning
the given file record, an empty permission and an empty response body. -/
def okService (f : DriveFile) : driveService :=
  { files :=
      { create := fun _ => Except.ok f
        get := fun _ => Except.ok f
        download := fun _ => Except.ok { body := "" }
        delete := fun _ => none
        update := fun _ => Except.ok f }
    permissions := { create := fun _ p => Except.ok p } }

/-- test fixture: the client New composes over an `okService`. -/
def okClient (f : DriveFile) : client :=
  { srv := okService f, pSrv := (okService f).permissions }

/-- test fixture: a local filesystem on which create and copy both succeed. -/
def okFs : LocalFs :=
  { createErr := fun _ => none, copyErr := fun _ _ => none }

/-- test fixture: a local filesystem on which os.Create fails. -/
def failCreateFs (e : GoErr) : LocalFs :=
  { createErr := fun _ => some e, copyErr := fun _ _ => none }

/-- test fixture: a local filesystem on which io.Copy fails. -/
def failCopyFs (e : GoErr) : LocalFs :=
  { createErr := fun _ => none, copyErr := fun _ _ => some e }

/-- a string is a lead of another when appending some suffix to the first
yields the second (the first is an initial segment of the second). -/
def isLeadOf (a b : String) : Prop :=
  ∃ t, a.data ++ t = b.data

theorem head_of_append {s : String} {c : Char} {l : List Char} (h : s.data = c :: l)
    (r : String) : (s ++ r).data.head? = some c := by
  rw [String.data_append, h]
  rfl

theorem ne_and_not_lead_of_head_ne {a b : String} {c₁ c₂ : Char}
    (ha : a.data.head? = some c₁) (hb : b.data.head? = some c₂) (hne : c₁ ≠ c₂) :
    a ≠ b ∧ ¬ isLeadOf a b := by
  constructor
  · intro h
    rw [h] at ha
    rw [ha] at hb
    exact hne (Option.some.inj hb)
  · rintro ⟨t, ht⟩
    cases hd : a.data with
    | nil =>
        rw [hd] at ha
        cases ha
    | cons d l =>
        rw [hd] at ha ht
        rw [← ht] at hb
        simp only [List.head?_cons, Option.some.injEq] at ha
        simp only [List.cons_append, List.head?_cons, Option.some.injEq] at hb
        exact hne (ha.symm.trans hb)

theorem downloadCtx_head (fileId : String) : (downloadCtx fileId).data.head? = some 'd' := by
  have h : ("downloading file with id ").data = 'd' :: ("ownloading file with id ").data := rfl
  exact head_of_append h fileId

theorem createOutCtx_head (outputFile : String) :
    (createOutCtx outputFile).data.head? = some 'c' := by
  have h : ("creating output file ").data = 'c' :: ("reating output file ").data := rfl
  exact head_of_append h outputFile

theorem writeOutCtx_head (outputFile : String) :
    (writeOutCtx outputFile).data.head? = some 'w' := by
  have h : ("writing output file ").data = 'w' :: ("riting output file ").data := rfl
  exact head_of_append h outputFile

theorem takeWhile_append_stop {α : Type} (p : α → Bool) (l₁ l₂ : List α) (c : α)
    (h₁ : ∀ x ∈ l₁, p x = true) (hc : p c = false) :
    (l₁ ++ c :: l₂).takeWhile p = l₁ := by
  induction l₁ with
  | nil => simp [List.takeWhile_cons, hc]
  | cons a l ih =>
      have ha : p a = true := h₁ a (by simp)
      have ih2 := ih (fun x hx => h₁ x (by simp [hx]))
      simp [List.takeWhile_cons, ha, ih2]

theorem filepathBase_of_append (dir fileName : String) (hne : fileName ≠ "")
    (hslash : ∀ ch ∈ fileName.data, ch ≠ '/') :
    filepathBase (dir ++ "/" ++ fileName) = fileName := by
  have hdata : (dir ++ "/" ++ fileName).data = dir.data ++ '/' :: fileName.data := by
    rw [String.data_append, String.data_append, List.append_assoc]
    rfl
  have hfne : fileName.data ≠ [] := by
    intro h
    exact hne (String.ext h)
  have hrne : fileName.data.reverse ≠ [] := by
    simpa using hfne
  obtain ⟨a, as, har⟩ := List.exists_cons_of_ne_nil hrne
  have hamem : a ∈ fileName.data := by
    have : a ∈ fileName.data.reverse := by rw [har]; simp
    simpa using this
  have haslash : (a == '/') = false := by
    simpa using hslash a hamem
  have hPne : dir ++ "/" ++ fileName ≠ "" := by
    intro h
    have h2 := congrArg String.data h
    rw [hdata] at h2
    simp at h2
  have hrev : (dir ++ "/" ++ fileName).data.reverse =
      fileName.data.reverse ++ '/' :: dir.data.reverse := by
    rw [hdata]
    simp
  have hdrop : (dir ++ "/" ++ fileName).data.reverse.dropWhile (fun c => c == '/') =
      fileName.data.reverse ++ '/' :: dir.data.reverse := by
    rw [hrev, har, List.cons_append, List.dropWhile_cons_of_neg (by simp [haslash])]
  have htake : (fileName.data.reverse ++ '/' :: dir.data.reverse).takeWhile
      (fun c => !(c == '/')) = fileName.data.reverse := by
    refine takeWhile_append_stop _ _ _ _ (fun x hx => ?_) (by simp)
    have : x ∈ fileName.data := by simpa using hx
    simpa using hslash x this
  unfold filepathBase
  rw [if_neg hPne]
  simp only [hdrop]
  rw [if_neg (by simp)]
  rw [htake, List.reverse_reverse]

/-- C1: for every client operation whose facade execute step fails with an
underlying cause e, the error returned to the caller has a message equal to the
documented context string for that operation, then ": ", then e's message; in
particular CreateFolder "someFolder" ["parentFolder"] whose facade Do step
fails with cause "create error" returns exactly
"creating folder someFolder under parent folders [parentFolder]: create error". -/
theorem c1_facade_failure_messages :
    (∀ (c : client) (folderName : String) (parents : List String) (e : GoErr),
        c.srv.files.create { file := createFolderFile folderName parents } = Except.error e →
        c.CreateFolder folderName parents = Except.error
          ("creating folder " ++ folderName ++ " under parent folders " ++
            goFmtStrings parents ++ ": " ++ e))
  ∧ (∀ (c : client) (sourceFile : OsFile) (parents : List String) (e : GoErr),
        c.srv.files.create (uploadCall sourceFile parents) = Except.error e →
        c.UploadFile sourceFile parents = Except.error
          ("creating file " ++ sourceFile.name ++ " under parent folders " ++
            goFmtStrings parents ++ ": " ++ e))
  ∧ (∀ (c : client) (fileId : String) (e : GoErr),
        c.srv.files.get fileId = Except.error e →
        c.GetFileById fileId = Except.error ("getting file with id " ++ fileId ++ ": " ++ e))
  ∧ (∀ (c : client) (fileId : String) (e : GoErr),
        c.srv.files.delete fileId = some e →
        c.DeleteFile fileId = some ("deleting file with id " ++ fileId ++ ": " ++ e))
  ∧ (∀ (c : client) (fileId : String) (newContent : OsFile) (e : GoErr),
        c.srv.files.update (updateCall fileId newContent) = Except.error e →
        c.UpdateFile fileId newContent = Except.error ("updating file " ++ fileId ++ ": " ++ e))
  ∧ (∀ (c : client) (fs : LocalFs) (fileId outputFile : String) (e : GoErr),
        c.srv.files.download fileId = Except.error e →
        c.DownloadFile fs fileId outputFile = Except.error
          ("downloading file with id " ++ fileId ++ ": " ++ e))
  ∧ (∀ (c : client) (role emailAddress fileId : String) (e : GoErr),
        c.pSrv.create fileId (userPermission role emailAddress) = Except.error e →
        c.AssignRoleToUserOnFile role emailAddress fileId = some
          ("assigning role " ++ role ++ " on file with id " ++ fileId ++
            " to email address " ++ emailAddress ++ ": " ++ e))
  ∧ (∀ (c : client) (role emailAddress fileId : String) (e : GoErr),
        c.pSrv.create fileId (groupPermission role emailAddress) = Except.error e →
        c.AssignRoleToGroupOnFile role emailAddress fileId = some
          ("assigning role " ++ role ++ " on file with id " ++ fileId ++
            " to email address " ++ emailAddress ++ ": " ++ e))
  ∧ (∀ (c : client) (role dom fileId : String) (e : GoErr),
        c.pSrv.create fileId (domainPermission role dom) = Except.error e →
        c.AssignRoleToDomainOnFile role dom fileId = some
          ("assigning role " ++ role ++ " on file with id " ++ fileId ++
            " to domain " ++ dom ++ ": " ++ e))
  ∧ (∀ (c : client) (role fileId : String) (e : GoErr),
        c.pSrv.create fileId (anyonePermission role) = Except.error e →
        c.AssignRoleToAnyoneOnFile role fileId = some
          ("assigning role " ++ role ++ " on file with id " ++ fileId ++ " to anyone" ++ ": " ++ e))
  ∧ (∀ c : client,
        c.srv.files.create { file := createFolderFile "someFolder" ["parentFolder"] } =
          Except.error "create error" →
        c.CreateFolder "someFolder" ["parentFolder"] = Except.error
          "creating folder someFolder under parent folders [parentFolder]: create error") := by
  refine ⟨?_, ?_, ?_, ?_, ?_, ?_, ?_, ?_, ?_, ?_, ?_⟩
  · intro c folderName parents e h
    unfold client.CreateFolder
    rw [h]
    rfl
  · intro c sourceFile parents e h
    unfold client.UploadFile
    rw [h]
    rfl
  · intro c fileId e h
    unfold client.GetFileById
    rw [h]
    rfl
  · intro c fileId e h
    unfold client.DeleteFile
    rw [h]
    rfl
  · intro c fileId newContent e h
    unfold client.UpdateFile
    rw [h]
    rfl
  · intro c fs fileId outputFile e h
    unfold client.DownloadFile client.DownloadFileAux
    rw [h]
    rfl
  · intro c role emailAddress fileId e h
    unfold client.AssignRoleToUserOnFile client.assignPermissionOnFile
    rw [h]
    rfl
  · intro c role emailAddress fileId e h
    unfold client.AssignRoleToGroupOnFile client.assignPermissionOnFile
    rw [h]
    rfl
  · intro c role dom fileId e h
    unfold client.AssignRoleToDomainOnFile client.assignPermissionOnFile
    rw [h]
    rfl
  · intro c role fileId e h
    unfold client.AssignRoleToAnyoneOnFile client.assignPermissionOnFile
    rw [h]
    rfl
  · intro c h
    unfold client.CreateFolder
    rw [h]
    rfl

/-- witness for C1: every conjunct instantiated on concrete failing fixtures,
reproducing the exact message strings asserted by the repository's tests. -/
theorem c1_witness :
    (failingClient "create error").CreateFolder "someFolder" ["parentFolder"] =
        Except.error "creating folder someFolder under parent folders [parentFolder]: create error"
  ∧ (failingClient "Do error").UploadFile { name := "newFile" } ["parentFolder"] =
        Except.error "creating file newFile under parent folders [parentFolder]: Do error"
  ∧ (failingClient "get error").GetFileById "fileId" =
        Except.error "getting file with id fileId: get error"
  ∧ (failingClient "delete error").DeleteFile "fileId" =
        some "deleting file with id fileId: delete error"
  ∧ (failingClient "update error").UpdateFile "fileId" { name := "new" } =
        Except.error "updating file fileId: update error"
  ∧ (failingClient "download error").DownloadFile okFs "fileId" "out" =
        Except.error "downloading file with id fileId: download error"
  ∧ (failingClient "create error").AssignRoleToUserOnFile "some role" "email" "fileId" =
        some "assigning role some role on file with id fileId to email address email: create error"
  ∧ (failingClient "create error").AssignRoleToGroupOnFile "some role" "email" "fileId" =
        some "assigning role some role on file with id fileId to email address email: create error"
  ∧ (failingClient "create error").AssignRoleToDomainOnFile "some role" "domain" "fileId" =
        some "assigning role some role on file with id fileId to domain domain: create error"
  ∧ (failingClient "create error").AssignRoleToAnyoneOnFile "some role" "fileId" =
        some "assigning role some role on file with id fileId to anyone: create error" := by
  refine ⟨?_, ?_, ?_, ?_, ?_, ?_, ?_, ?_, ?_, ?_⟩
  · exact c1_facade_failure_messages.1 (failingClient "create error")
      "someFolder" ["parentFolder"] "create error" rfl
  · exact c1_facade_failure_messages.2.1 (failingClient "Do error")
      { name := "newFile" } ["parentFolder"] "Do error" rfl
  · exact c1_facade_failure_messages.2.2.1 (failingClient "get error") "fileId" "get error" rfl
  · exact c1_facade_failure_messages.2.2.2.1 (failingClient "delete error")
      "fileId" "delete error" rfl
  · exact c1_facade_failure_messages.2.2.2.2.1 (failingClient "update error")
      "fileId" { name := "new" } "update error" rfl
  · exact c1_facade_failure_messages.2.2.2.2.2.1 (failingClient "download error")
      okFs "fileId" "out" "download error" rfl
  · exact c1_facade_failure_messages.2.2.2.2.2.2.1 (failingClient "create error")
      "some role" "email" "fileId" "create error" rfl
  · exact c1_facade_failure_messages.2.2.2.2.2.2.2.1 (failingClient "create error")
      "some role" "email" "fileId" "create error" rfl
  · exact c1_facade_failure_messages.2.2.2.2.2.2.2.2.1 (failingClient "create error")
      "some role" "domain" "fileId" "create error" rfl
  · exact c1_facade_failure_messages.2.2.2.2.2.2.2.2.2.1 (failingClient "create error")
      "some role" "fileId" "create error" rfl

/-- C2: whenever the facade's create execute step succeeds with a created file
record, CreateFolder returns exactly that record's identifier field, with no
transformation, and no error. -/
theorem c2_createfolder_returns_id :
    ∀ (c : client) (folderName : String) (parents : List String) (f : DriveFile),
      c.srv.files.create { file := createFolderFile folderName parents } = Except.ok f →
      c.CreateFolder folderName parents = Except.ok f.id := by
  intro c folderName parents f h
  unfold client.CreateFolder
  rw [h]

/-- witness for C2. -/
theorem c2_witness :
    (okClient { id := "someFolderId" }).CreateFolder "someFolder" ["parentFolder"] =
      Except.ok "someFolderId" :=
  c2_createfolder_returns_id (okClient { id := "someFolderId" }) "someFolder"
    ["parentFolder"] { id := "someFolderId" } rfl

/-- C3: UploadFile sets the remote name to the base name of the local source's
path: the create call's name field is filepathBase of the source's name, and
for any path dir ++ "/" ++ fileName whose last segment is nonempty and free of
separators, that name is exactly fileName, independent of dir. -/
theorem c3_upload_uses_basename :
    (∀ (sourceFile : OsFile) (parents : List String),
        (uploadCall sourceFile parents).file.name = filepathBase sourceFile.name)
  ∧ (∀ (dir fileName : String), fileName ≠ "" → (∀ ch ∈ fileName.data, ch ≠ '/') →
        ∀ parents : List String,
          (uploadCall { name := dir ++ "/" ++ fileName } parents).file.name = fileName) := by
  constructor
  · intro sourceFile parents
    rfl
  · intro dir fileName hne hslash parents
    show filepathBase (dir ++ "/" ++ fileName) = fileName
    exact filepathBase_of_append dir fileName hne hslash

/-- witness for C3: the source path /tmp/xyz/newFile yields remote name newFile. -/
theorem c3_witness :
    (uploadCall { name := "/tmp/xyz" ++ "/" ++ "newFile" } []).file.name = "newFile" :=
  c3_upload_uses_basename.2 "/tmp/xyz" "newFile" (by decide) (by decide) []

/-- C4: each AssignRole variant builds a permission whose Type field matches
the variant (user/group/domain/anyone), and whose grantee identifier fields
(EmailAddress, Domain) are both empty exactly when the variant is the anyone
one, the other variants being invoked with their required nonempty identifier. -/
theorem c4_grantee_shapes :
    (∀ role emailAddress : String,
        (userPermission role emailAddress).type = UserGranteeType ∧
        (userPermission role emailAddress).emailAddress = emailAddress ∧
        (userPermission role emailAddress).domain = "" ∧
        (userPermission role emailAddress).role = role)
  ∧ (∀ role emailAddress : String,
        (groupPermission role emailAddress).type = GroupGranteeType ∧
        (groupPermission role emailAddress).emailAddress = emailAddress ∧
        (groupPermission role emailAddress).domain = "" ∧
        (groupPermission role emailAddress).role = role)
  ∧ (∀ role dom : String,
        (domainPermission role dom).type = DomainGranteeType ∧
        (domainPermission role dom).domain = dom ∧
        (domainPermission role dom).emailAddress = "" ∧
        (domainPermission role dom).role = role)
  ∧ (∀ role : String,
        (anyonePermission role).type = AnyoneGranteeType ∧
        (anyonePermission role).emailAddress = "" ∧
        (anyonePermission role).domain = "" ∧
        (anyonePermission role).role = role)
  ∧ (∀ role emailAddress : String, emailAddress ≠ "" →
        ¬((userPermission role emailAddress).emailAddress = "" ∧
          (userPermission role emailAddress).domain = ""))
  ∧ (∀ role emailAddress : String, emailAddress ≠ "" →
        ¬((groupPermission role emailAddress).emailAddress = "" ∧
          (groupPermission role emailAddress).domain = ""))
  ∧ (∀ role dom : String, dom ≠ "" →
        ¬((domainPermission role dom).emailAddress = "" ∧
          (domainPermission role dom).domain = "")) := by
  refine ⟨fun r e => ⟨rfl, rfl, rfl, rfl⟩, fun r e => ⟨rfl, rfl, rfl, rfl⟩,
    fun r d => ⟨rfl, rfl, rfl, rfl⟩, fun r => ⟨rfl, rfl, rfl, rfl⟩,
    fun r e he h => he h.1, fun r e he h => he h.1, fun r d hd h => hd h.2⟩

/-- witness for C4. -/
theorem c4_witness :
    (userPermission "reader" "a@b.c").type = "user"
  ∧ (groupPermission "reader" "a@b.c").type = "group"
  ∧ (domainPermission "reader" "example.com").type = "domain"
  ∧ (anyonePermission "reader").type = "anyone"
  ∧ (anyonePermission "reader").emailAddress = ""
  ∧ (anyonePermission "reader").domain = ""
  ∧ ¬((userPermission "reader" "a@b.c").emailAddress = "" ∧
      (userPermission "reader" "a@b.c").domain = "")
  ∧ ¬((groupPermission "reader" "a@b.c").emailAddress = "" ∧
      (groupPermission "reader" "a@b.c").domain = "")
  ∧ ¬((domainPermission "reader" "example.com").emailAddress = "" ∧
      (domainPermission "reader" "example.com").domain = "") := by
  refine ⟨(c4_grantee_shapes.1 "reader" "a@b.c").1,
    (c4_grantee_shapes.2.1 "reader" "a@b.c").1,
    (c4_grantee_shapes.2.2.1 "reader" "example.com").1,
    (c4_grantee_shapes.2.2.2.1 "reader").1,
    (c4_grantee_shapes.2.2.2.1 "reader").2.1,
    (c4_grantee_shapes.2.2.2.1 "reader").2.2.1,
    c4_grantee_shapes.2.2.2.2.1 "reader" "a@b.c" (by decide),
    c4_grantee_shapes.2.2.2.2.2.1 "reader" "a@b.c" (by decide),
    c4_grantee_shapes.2.2.2.2.2.2 "reader" "example.com" (by decide)⟩

/-- C5: DownloadFile has exactly three failure points; their context strings
are pairwise distinct and none is an initial segment of another, for every
fileId and outputFile; each failure point wraps its cause in its own context,
and every error DownloadFile returns carries one of the three contexts. -/
theorem c5_download_failure_points :
    (∀ fileId outputFile : String,
        (downloadCtx fileId ≠ createOutCtx outputFile ∧
          ¬ isLeadOf (downloadCtx fileId) (createOutCtx outputFile) ∧
          ¬ isLeadOf (createOutCtx outputFile) (downloadCtx fileId)) ∧
        (downloadCtx fileId ≠ writeOutCtx outputFile ∧
          ¬ isLeadOf (downloadCtx fileId) (writeOutCtx outputFile) ∧
          ¬ isLeadOf (writeOutCtx outputFile) (downloadCtx fileId)) ∧
        (createOutCtx outputFile ≠ writeOutCtx outputFile ∧
          ¬ isLeadOf (createOutCtx outputFile) (writeOutCtx outputFile) ∧
          ¬ isLeadOf (writeOutCtx outputFile) (createOutCtx outputFile)))
  ∧ (∀ (c : client) (fs : LocalFs) (fileId outputFile : String) (e : GoErr),
        c.srv.files.download fileId = Except.error e →
        c.DownloadFile fs fileId outputFile =
          Except.error (downloadCtx fileId ++ ": " ++ e))
  ∧ (∀ (c : client) (fs : LocalFs) (fileId outputFile : String) (resp : HttpResponse)
        (e : GoErr),
        c.srv.files.download fileId = Except.ok resp →
        fs.createErr outputFile = some e →
        c.DownloadFile fs fileId outputFile =
          Except.error (createOutCtx outputFile ++ ": " ++ e))
  ∧ (∀ (c : client) (fs : LocalFs) (fileId outputFile : String) (resp : HttpResponse)
        (e : GoErr),
        c.srv.files.download fileId = Except.ok resp →
        fs.createErr outputFile = none →
        fs.copyErr outputFile resp.body = some e →
        c.DownloadFile fs fileId outputFile =
          Except.error (writeOutCtx outputFile ++ ": " ++ e))
  ∧ (∀ (c : client) (fs : LocalFs) (fileId outputFile msg : String),
        c.DownloadFile fs fileId outputFile = Except.error msg →
        (∃ e, msg = downloadCtx fileId ++ ": " ++ e) ∨
        (∃ e, msg = createOutCtx outputFile ++ ": " ++ e) ∨
        (∃ e, msg = writeOutCtx outputFile ++ ": " ++ e)) := by
  refine ⟨?_, ?_, ?_, ?_, ?_⟩
  · intro fileId outputFile
    have hdc := ne_and_not_lead_of_head_ne (downloadCtx_head fileId)
      (createOutCtx_head outputFile) (by decide)
    have hcd := ne_and_not_lead_of_head_ne (createOutCtx_head outputFile)
      (downloadCtx_head fileId) (by decide)
    have hdw := ne_and_not_lead_of_head_ne (downloadCtx_head fileId)
      (writeOutCtx_head outputFile) (by decide)
    have hwd := ne_and_not_lead_of_head_ne (writeOutCtx_head outputFile)
      (downloadCtx_head fileId) (by decide)
    have hcw := ne_and_not_lead_of_head_ne (createOutCtx_head outputFile)
      (writeOutCtx_head outputFile) (by decide)
    have hwc := ne_and_not_lead_of_head_ne (writeOutCtx_head outputFile)
      (createOutCtx_head outputFile) (by decide)
    exact ⟨⟨hdc.1, hdc.2, hcd.2⟩, ⟨hdw.1, hdw.2, hwd.2⟩, ⟨hcw.1, hcw.2, hwc.2⟩⟩
  · intro c fs fileId outputFile e hdl
    unfold client.DownloadFile client.DownloadFileAux
    rw [hdl]
    rfl
  · intro c fs fileId outputFile resp e hdl hcr
    unfold client.DownloadFile client.DownloadFileAux osCreate
    rw [hdl, hcr]
    rfl
  · intro c fs fileId outputFile resp e hdl hcr hcp
    unfold client.DownloadFile client.DownloadFileAux osCreate ioCopy
    rw [hdl, hcr]
    show (match fs.copyErr outputFile resp.body with
      | some err =>
          (Except.error (wrap err (writeOutCtx outputFile)),
            [DlStep.download fileId, DlStep.osCreate outputFile, DlStep.ioCopy outputFile])
      | none =>
          (Except.ok outputFile,
            [DlStep.download fileId, DlStep.osCreate outputFile,
              DlStep.ioCopy outputFile])).1 = _
    rw [hcp]
    rfl
  · intro c fs fileId outputFile msg h
    cases hdl : c.srv.files.download fileId with
    | error e =>
        have hres : c.DownloadFile fs fileId outputFile =
            Except.error (downloadCtx fileId ++ ": " ++ e) := by
          unfold client.DownloadFile client.DownloadFileAux
          rw [hdl]
          rfl
        rw [hres] at h
        injection h with h2
        exact Or.inl ⟨e, h2.symm⟩
    | ok resp =>
        cases hcr : fs.createErr outputFile with
        | some e =>
            have hres : c.DownloadFile fs fileId outputFile =
                Except.error (createOutCtx outputFile ++ ": " ++ e) := by
              unfold client.DownloadFile client.DownloadFileAux osCreate
              rw [hdl, hcr]
              rfl
            rw [hres] at h
            injection h with h2
            exact Or.inr (Or.inl ⟨e, h2.symm⟩)
        | none =>
            cases hcp : fs.copyErr outputFile resp.body with
            | some e =>
                have hres : c.DownloadFile fs fileId outputFile =
                    Except.error (writeOutCtx outputFile ++ ": " ++ e) := by
                  unfold client.DownloadFile client.DownloadFileAux osCreate ioCopy
                  rw [hdl, hcr]
                  show (match fs.copyErr outputFile resp.body with
                    | some err =>
                        (Except.error (wrap err (writeOutCtx outputFile)),
                          [DlStep.download fileId, DlStep.osCreate outputFile,
                            DlStep.ioCopy outputFile])
                    | none =>
                        (Except.ok outputFile,
                          [DlStep.download fileId, DlStep.osCreate outputFile,
                            DlStep.ioCopy outputFile])).1 = _
                  rw [hcp]
                  rfl
                rw [hres] at h
                injection h with h2
                exact Or.inr (Or.inr ⟨e, h2.symm⟩)
            | none =>
                have hres : c.DownloadFile fs fileId outputFile = Except.ok outputFile := by
                  unfold client.DownloadFile client.DownloadFileAux osCreate ioCopy
                  rw [hdl, hcr]
                  show (match fs.copyErr outputFile resp.body with
                    | some err =>
                        (Except.error (wrap err (writeOutCtx outputFile)),
                          [DlStep.download fileId, DlStep.osCreate outputFile,
                            DlStep.ioCopy outputFile])
                    | none =>
                        (Except.ok outputFile,
                          [DlStep.download fileId, DlStep.osCreate outputFile,
                            DlStep.ioCopy outputFile])).1 = _
                  rw [hcp]
                rw [hres] at h
                exact Except.noConfusion h

/-- witness for C5: context distinctness at the test's concrete inputs, and the
three failure points reproduced on concrete fixtures with the exact messages
asserted by the repository's tests. -/
theorem c5_witness :
    downloadCtx "filedId" ≠ createOutCtx "/path/to/file/test"
  ∧ (failingClient "download error").DownloadFile okFs "filedId" "out" =
      Except.error "downloading file with id filedId: download error"
  ∧ (okClient {}).DownloadFile (failCreateFs "os open error") "fileId" "/path/to/file/test" =
      Except.error "creating output file /path/to/file/test: os open error"
  ∧ (okClient {}).DownloadFile (failCopyFs "copy error") "fileId" "/path/to/file/test" =
      Except.error "writing output file /path/to/file/test: copy error" := by
  refine ⟨?_, ?_, ?_, ?_⟩
  · exact ((c5_download_failure_points.1 "filedId" "/path/to/file/test").1).1
  · exact c5_download_failure_points.2.1 (failingClient "download error") okFs
      "filedId" "out" "download error" rfl
  · exact c5_download_failure_points.2.2.1 (okClient {}) (failCreateFs "os open error")
      "fileId" "/path/to/file/test" { body := "" } "os open error" rfl rfl
  · exact c5_download_failure_points.2.2.2.1 (okClient {}) (failCopyFs "copy error")
      "fileId" "/path/to/file/test" { body := "" } "copy error" rfl rfl rfl

/-- C6: when the remote download, the local create and the local copy all
succeed, DownloadFile returns exactly the outputFile string it was given. -/
theorem c6_download_success :
    ∀ (c : client) (fs : LocalFs) (fileId outputFile : String) (resp : HttpResponse),
      c.srv.files.download fileId = Except.ok resp →
      fs.createErr outputFile = none →
      fs.copyErr outputFile resp.body = none →
      c.DownloadFile fs fileId outputFile = Except.ok outputFile := by
  intro c fs fileId outputFile resp hdl hcr hcp
  unfold client.DownloadFile client.DownloadFileAux osCreate ioCopy
  rw [hdl, hcr]
  show (match fs.copyErr outputFile resp.body with
    | some err =>
        (Except.error (wrap err (writeOutCtx outputFile)),
          [DlStep.download fileId, DlStep.osCreate outputFile, DlStep.ioCopy outputFile])
    | none =>
        (Except.ok outputFile,
          [DlStep.download fileId, DlStep.osCreate outputFile,
            DlStep.ioCopy outputFile])).1 = _
  rw [hcp]

/-- witness for C6. -/
theorem c6_witness :
    (okClient {}).DownloadFile okFs "fileId" "/path/to/file/test" =
      Except.ok "/path/to/file/test" :=
  c6_download_success (okClient {}) okFs "fileId" "/path/to/file/test" { body := "" }
    rfl rfl rfl

/-- C7 counterexample: with a facade whose update step succeeds and returns a
record with identifier "someFileId" (the repository's own test fixture),
UpdateFile called with fileId "fileId" returns "someFileId", not the fileId it
was called with — so UpdateFile does not in general return its input fileId. -/
theorem c7_counterexample :
    (okClient { id := "someFileId" }).UpdateFile "fileId" { name := "newContent" } =
      Except.ok "someFileId" ∧ "someFileId" ≠ "fileId" := by
  exact ⟨rfl, by decide⟩

/-- C7 (amended): when the facade's update execute step succeeds with record f,
UpdateFile returns f's identifier field — which equals the input fileId exactly
when the remote response echoes that identifier. -/
theorem c7_update_returns_response_id :
    ∀ (c : client) (fileId : String) (newContent : OsFile) (f : DriveFile),
      c.srv.files.update (updateCall fileId newContent) = Except.ok f →
      c.UpdateFile fileId newContent = Except.ok f.id := by
  intro c fileId newContent f h
  unfold client.UpdateFile
  rw [h]

/-- witness for C7's amended theorem. -/
theorem c7_witness :
    (okClient { id := "updatedId" }).UpdateFile "fileId" { name := "n" } =
      Except.ok "updatedId" :=
  c7_update_returns_response_id (okClient { id := "updatedId" }) "fileId" { name := "n" }
    { id := "updatedId" } rfl

/-- C8: the update call UpdateFile builds passes no metadata object (its
metadata field is none for every invocation) and attaches only the new
content, so name and MIME type cannot be changed through UpdateFile. -/
theorem c8_update_passes_no_metadata :
    ∀ (fileId : String) (newContent : OsFile),
      (updateCall fileId newContent).file = none ∧
      (updateCall fileId newContent).media = some newContent :=
  fun _ _ => ⟨rfl, rfl⟩

/-- C9: when service construction fails with cause e, New returns no client
and an error reading exactly "creating drive service: " followed by e; when
it succeeds, New returns the composed client and no error. -/
theorem c9_new_construction :
    (∀ e : GoErr, New (Except.error e) = Except.error ("creating drive service: " ++ e))
  ∧ (∀ srv : driveService,
      New (Except.ok srv) = Except.ok { srv := srv, pSrv := srv.permissions }) := by
  constructor
  · intro e
    rfl
  · intro srv
    rfl

/-- C10: when the remote fetch step of DownloadFile fails, the local create
operation is never invoked: the effect trace is exactly the download attempt,
and contains no local create event for any path. -/
theorem c10_no_local_create_on_remote_failure :
    ∀ (c : client) (fs : LocalFs) (fileId outputFile : String) (e : GoErr),
      c.srv.files.download fileId = Except.error e →
      (c.DownloadFileAux fs fileId outputFile).2 = [DlStep.download fileId] ∧
      ∀ path, DlStep.osCreate path ∉ (c.DownloadFileAux fs fileId outputFile).2 := by
  intro c fs fileId outputFile e hdl
  have htrace : (c.DownloadFileAux fs fileId outputFile).2 = [DlStep.download fileId] := by
    unfold client.DownloadFileAux
    rw [hdl]
  refine ⟨htrace, fun path hmem => ?_⟩
  rw [htrace] at hmem
  have h2 := List.mem_singleton.mp hmem
  exact DlStep.noConfusion h2

/-- witness for C10. -/
theorem c10_witness :
    ((failingClient "download error").DownloadFileAux okFs "fileId" "out").2 =
      [DlStep.download "fileId"]
  ∧ DlStep.osCreate "out" ∉
      ((failingClient "download error").DownloadFileAux okFs "fileId" "out").2 := by
  have h := c10_no_local_create_on_remote_failure (failingClient "download error") okFs
    "fileId" "out" "download error" rfl
  exact ⟨h.1, h.2 "out"⟩

end GoogleDrive
